import Mathlib

/-!
Verification of the webhook-repo backend (Flask + MongoDB webhook receiver).

This file shallowly embeds the core logic of the repository:

* `app/models/event.py`    — the `Event` dataclass and its `validate` method,
* `app/services/event_parser.py` — `parse_push_event`, `parse_pull_request_event`,
  `_parse_timestamp`,
* `app/services/event_service.py` — `save_event`, `get_recent_events`,
  `get_all_events`, `get_events_count`,
* `app/routes/webhook.py`  — the core of `handle_webhook`,
* `app/routes/events.py`   — the `since`-parsing and `limit`-clamping logic of
  `get_events`,
* `app/utils/database.py`  — the unique index on `request_id` (modelled as the
  store's duplicate check) ,
* `app/config.py`          — `Config.EVENT_TIME_WINDOW`.

Python dictionaries coming from `request.get_json()` are modelled by a `Json`
type; Python's defensive `dict.get` access, truthiness, `str.replace`,
`str.strip`, f-string interpolation and exception control flow are embedded
explicitly.  Exceptions are modelled with `Except PyErr`; the blanket
`try/except` blocks of the source become total functions returning `Option`.
MongoDB is modelled as an in-memory list of documents with the unique index on
`request_id` and the query/sort/limit semantics of the driver calls used by the
source.  The wall clock (`datetime.now(timezone.utc)` / `datetime.utcnow()`)
is threaded through as an explicit `now : DateTime` parameter.
-/

/-- Python exception classes that the embedded code can raise.
`attributeError` models `AttributeError` (calling `.get`, `.replace`,
`.strip`, `.endswith` on a value that is not of the right type);
`valueError` models `ValueError` (raised by `Event.validate`). -/
inductive PyErr where
  | attributeError
  | valueError
deriving DecidableEq

mutual
/-- A JSON value, as delivered by `request.get_json()`.  Objects and arrays
are separate mutual inductives so that all functions on `Json` are plain
structural recursions.  Numbers are modelled as integers: no payload field
used by this repository carries a fractional number. -/
inductive Json where
  | null : Json
  | bool : Bool → Json
  | int : Int → Json
  | str : String → Json
  | arr : JsonArr → Json
  | obj : JsonObj → Json

/-- A JSON array. -/
inductive JsonArr where
  | nil : JsonArr
  | cons : Json → JsonArr → JsonArr

/-- A JSON object: an ordered list of key/value pairs (Python dicts have
unique keys; lookup takes the first match). -/
inductive JsonObj where
  | nil : JsonObj
  | cons : String → Json → JsonObj → JsonObj
end

/-- Key lookup in a JSON object, `d[k]` / the hit case of `d.get(k)`. -/
def jlookup : JsonObj → String → Option Json
  | .nil, _ => none
  | .cons k v rest, key => if k = key then some v else jlookup rest key

/-- Python truthiness (`bool(x)`) of a JSON value: `None`, `False`, `0`,
`""`, `[]` and `{}` are falsy, everything else is truthy. -/
def truthy : Json → Bool
  | .null => false
  | .bool b => b
  | .int n => n != 0
  | .str s => s != ""
  | .arr .nil => false
  | .arr (.cons _ _) => true
  | .obj .nil => false
  | .obj (.cons _ _ _) => true

/-- Python `v.get(k, d)`: succeeds with the looked-up value (or the default)
when `v` is a dict, raises `AttributeError` otherwise. -/
def pyGet (v : Json) (k : String) (d : Json) : Except PyErr Json :=
  match v with
  | .obj kvs => .ok ((jlookup kvs k).getD d)
  | _ => .error .attributeError

/-- Total accessor used only in theorem statements: the value `v.get(k, d)`
would produce on a dict, and the default on anything else. -/
def jGetD (v : Json) (k : String) (d : Json) : Json :=
  match v with
  | .obj kvs => (jlookup kvs k).getD d
  | _ => d

/-- Python `x == s` for a JSON value against a string literal: string
equality when `x` is a string, `False` for every other runtime type. -/
def jStrEq (v : Json) (s : String) : Bool :=
  match v with
  | .str t => t == s
  | _ => false

/-- A single-quoted string, as Python `repr` prints one (quote-escaping
inside the string is not modelled; no payload in this development needs it). -/
def pyQuote (s : String) : String :=
  String.singleton (Char.ofNat 39) ++ s ++ String.singleton (Char.ofNat 39)

mutual
/-- Python `str(x)` on a JSON value (as used by f-string interpolation):
strings are taken verbatim, `str(True) = "True"`, `str(None) = "None"`,
integers print in decimal; containers print via `repr` of their elements. -/
def pyStr : Json → String
  | .str s => s
  | .int n => toString n
  | .bool true => "True"
  | .bool false => "False"
  | .null => "None"
  | .arr l => "[" ++ pyStrArr l ++ "]"
  | .obj kvs => "\x7b" ++ pyStrObj kvs ++ "\x7d"

/-- Python `repr(x)`: like `str(x)` but strings are quoted. -/
def pyRepr : Json → String
  | .str s => pyQuote s
  | v => pyStrAtom v

/-- `str` of a non-string scalar, shared by `pyStr` and `pyRepr`. -/
def pyStrAtom : Json → String
  | .str s => s
  | .int n => toString n
  | .bool true => "True"
  | .bool false => "False"
  | .null => "None"
  | .arr l => "[" ++ pyStrArr l ++ "]"
  | .obj kvs => "\x7b" ++ pyStrObj kvs ++ "\x7d"

/-- Comma-joined `repr`s of array elements. -/
def pyStrArr : JsonArr → String
  | .nil => ""
  | .cons v .nil => pyRepr v
  | .cons v rest => pyRepr v ++ ", " ++ pyStrArr rest

/-- Comma-joined `repr`ed key/value pairs of an object. -/
def pyStrObj : JsonObj → String
  | .nil => ""
  | .cons k v .nil => pyQuote k ++ ": " ++ pyRepr v
  | .cons k v rest => pyQuote k ++ ": " ++ pyRepr v ++ ", " ++ pyStrObj rest
end

/-- Whitespace characters removed by Python `str.strip()` (the ASCII ones;
no payload in this development contains non-ASCII whitespace). -/
def pySpace (c : Char) : Bool :=
  c = ' ' || c = '\t' || c = '\n' || c = '\x0d' || c = '\x0b' || c = '\x0c'

/-- Python `s.strip()`. -/
def pyStrip (s : String) : String :=
  ⟨(((s.data.dropWhile pySpace).reverse.dropWhile pySpace).reverse)⟩

/-- `pre.data.isPrefixOf s.data`: does `s` start with `pre`?  Used to state
the "request_id starts with ..." properties. -/
def strStartsWith (s pre : String) : Bool :=
  pre.data.isPrefixOf s.data

/-- The character list of the literal `"refs/heads/"`. -/
def refsHeadsChars : List Char := "refs/heads/".data

/-- Fuel-indexed core of Python `s.replace("refs/heads/", "")`: scans left to
right, removing every (non-overlapping) occurrence of `refs/heads/`.  The
fuel is always instantiated with the length of the list, which bounds the
recursion depth. -/
def removeRefsHeadsAux : Nat → List Char → List Char
  | 0, l => l
  | _ + 1, [] => []
  | fuel + 1, c :: rest =>
    if refsHeadsChars.isPrefixOf (c :: rest) then
      removeRefsHeadsAux fuel (rest.drop 10)
    else
      c :: removeRefsHeadsAux fuel rest

/-- Python `s.replace("refs/heads/", "")` — note: this removes **every**
occurrence of the substring anywhere in `s`, not just a leading prefix
(`event_parser.py` line 52). -/
def pyRemoveRefsHeads (s : String) : String :=
  ⟨removeRefsHeadsAux s.data.length s.data⟩

/-- Python `s.endswith(t)`. -/
def pyEndsWith (s t : String) : Bool :=
  t.data.isSuffixOf s.data

/-- Python `s[:-1]`. -/
def pyDropLast (s : String) : String :=
  ⟨s.data.dropLast⟩

/-! ## Naive datetimes

`datetime` values are modelled by their six clock fields.  Arithmetic
(`timedelta` subtraction, `astimezone` offset conversion, `$gt` comparison)
goes through the epoch-second count computed by the standard civil-calendar
conversion (valid for years `1..9999`, the range `datetime` supports). -/

/-- A timezone-naive `datetime` (microseconds are always 0 in this
repository's data and are not modelled). -/
structure DateTime where
  year : Nat
  month : Nat
  day : Nat
  hour : Nat
  minute : Nat
  second : Nat
deriving DecidableEq

/-- Days from 0000-03-01 to the civil date `y-m-d` (Gregorian, proleptic). -/
def daysFromCivil (y m d : Nat) : Nat :=
  let y' := if m ≤ 2 then y - 1 else y
  let era := y' / 400
  let yoe := y' % 400
  let mp := if m > 2 then m - 3 else m + 9
  let doy := (153 * mp + 2) / 5 + d - 1
  let doe := yoe * 365 + yoe / 4 - yoe / 100 + doy
  era * 146097 + doe

/-- Inverse of `daysFromCivil`: the civil date of a day count. -/
def civilFromDays (days : Nat) : Nat × Nat × Nat :=
  let era := days / 146097
  let doe := days % 146097
  let yoe := (doe - doe / 1460 + doe / 36524 - doe / 146096) / 365
  let y' := yoe + era * 400
  let doy := doe - (365 * yoe + yoe / 4 - yoe / 100)
  let mp := (5 * doy + 2) / 153
  let d := doy - (153 * mp + 2) / 5 + 1
  let m := if mp < 10 then mp + 3 else mp - 9
  (if m ≤ 2 then y' + 1 else y', m, d)

/-- Seconds from the 0000-03-01 epoch to a naive datetime. -/
def dtSecs (t : DateTime) : Nat :=
  daysFromCivil t.year t.month t.day * 86400 + t.hour * 3600 + t.minute * 60 + t.second

/-- The naive datetime of an epoch-second count. -/
def dtOfSecs (n : Nat) : DateTime :=
  let (y, m, d) := civilFromDays (n / 86400)
  let rem := n % 86400
  ⟨y, m, d, rem / 3600, rem / 60 % 60, rem % 60⟩

/-- `a < b` on naive datetimes, i.e. MongoDB's `$gt` filter read as
"`b` is strictly later than `a`". -/
def dtLtB (a b : DateTime) : Bool :=
  dtSecs a < dtSecs b

/-- `now - timedelta(seconds = n)`. -/
def subSeconds (t : DateTime) (n : Nat) : DateTime :=
  dtOfSecs (dtSecs t - n)

/-- A parsed aware-or-naive `datetime`: the clock fields plus the
`tzinfo` UTC offset in minutes, when one was attached. -/
structure PyDT where
  dt : DateTime
  tzMin : Option Int
deriving DecidableEq

/-- Days in a month of a given year (Gregorian). -/
def daysInMonth (y m : Nat) : Nat :=
  if m = 2 then
    if y % 4 = 0 && (y % 100 != 0 || y % 400 = 0) then 29 else 28
  else if m = 4 || m = 6 || m = 9 || m = 11 then 30
  else 31

/-- Two-digit decimal read. -/
def read2 (a b : Char) : Option Nat :=
  if a.isDigit && b.isDigit then some ((a.toNat - 48) * 10 + (b.toNat - 48))
  else none

/-- Four-digit decimal read. -/
def read4 (a b c d : Char) : Option Nat :=
  if a.isDigit && b.isDigit && c.isDigit && d.isDigit then
    some ((a.toNat - 48) * 1000 + (b.toNat - 48) * 100 + (c.toNat - 48) * 10 + (d.toNat - 48))
  else none

/-- Parse the optional `±HH:MM` offset tail of an ISO string: `[]` means no
`tzinfo`; anything else must be a full offset. -/
def parseIsoOffset : List Char → Option (Option Int)
  | [] => some none
  | sign :: h1 :: h2 :: ':' :: m1 :: m2 :: [] => do
    let hh ← read2 h1 h2
    let mm ← read2 m1 m2
    if hh ≤ 23 && mm ≤ 59 then
      if sign = '+' then some (some ((hh * 60 + mm : Nat) : Int))
      else if sign = '-' then some (some (-((hh * 60 + mm : Nat) : Int)))
      else none
    else none
  | _ => none

/-- Parse the `HH:MM[:SS]` time part followed by the optional offset. -/
def parseIsoTime : List Char → Option (Nat × Nat × Nat × Option Int)
  | h1 :: h2 :: ':' :: m1 :: m2 :: rest => do
    let hh ← read2 h1 h2
    let mm ← read2 m1 m2
    if hh ≤ 23 && mm ≤ 59 then
      match rest with
      | ':' :: s1 :: s2 :: rest2 => do
        let ss ← read2 s1 s2
        if ss ≤ 59 then
          let tz ← parseIsoOffset rest2
          some (hh, mm, ss, tz)
        else none
      | _ => do
        let tz ← parseIsoOffset rest
        some (hh, mm, 0, tz)
    else none
  | _ => none

/-- Modelled from the Python standard library: `datetime.fromisoformat`,
restricted to the grammar this repository's inputs exercise —
`YYYY-MM-DD[<sep>HH:MM[:SS][±HH:MM]]` with any single separator character,
no fractional seconds, calendar-validated fields.  Returns `none` where
CPython raises `ValueError`. -/
def pyFromIso (s : String) : Option PyDT :=
  match s.data with
  | y1 :: y2 :: y3 :: y4 :: '-' :: m1 :: m2 :: '-' :: d1 :: d2c :: rest => do
    let y ← read4 y1 y2 y3 y4
    let m ← read2 m1 m2
    let d ← read2 d1 d2c
    if 1 ≤ m && m ≤ 12 && 1 ≤ d && d ≤ daysInMonth y m && 1 ≤ y then
      match rest with
      | [] => some ⟨⟨y, m, d, 0, 0, 0⟩, none⟩
      | _ :: timePart => do
        let (hh, mm, ss, tz) ← parseIsoTime timePart
        some ⟨⟨y, m, d, hh, mm, ss⟩, tz⟩
    else none
  | _ => none

/-- `dt.astimezone(timezone.utc).replace(tzinfo=None)` for an aware value,
identity (up to the dropped marker) for a naive one: the UTC-naive instant
of a parsed datetime. -/
def utcNaive (p : PyDT) : DateTime :=
  match p.tzMin with
  | none => p.dt
  | some off => dtOfSecs (((dtSecs p.dt : Int) - off * 60).toNat)

/-! ## The Event model (`app/models/event.py`) -/

/-- `ActionType.PUSH.value`. -/
def ActionType.PUSH : String := "PUSH"

/-- `ActionType.PULL_REQUEST.value`. -/
def ActionType.PULL_REQUEST : String := "PULL_REQUEST"

/-- `ActionType.MERGE.value`. -/
def ActionType.MERGE : String := "MERGE"

/-- The values of the `ActionType` enum, i.e.
`[a.value for a in ActionType]` in `Event.validate`. -/
def validActions : List String := [ActionType.PUSH, ActionType.PULL_REQUEST, ActionType.MERGE]

/-- The `Event` dataclass.  The string fields hold the values that survived
`Event.validate` (see `checkFieldJ` / `checkStrS`, which model the checks on
the raw payload values); `timestamp` is always a `datetime` by construction,
so the `isinstance` check of `validate` is vacuous in the embedding. -/
structure Event where
  request_id : String
  author : String
  action : String
  from_branch : String
  to_branch : String
  timestamp : DateTime
deriving DecidableEq

/-- `Event.validate`'s treatment of a string-typed field `x`
(`if not x or not x.strip(): raise ValueError`). -/
def checkStrS (s : String) : Except PyErr String :=
  if s = "" then .error .valueError
  else if pyStrip s = "" then .error .valueError
  else .ok s

/-- `Event.validate`'s treatment of a field that arrived as a raw payload
value: `not x` is Python truthiness, and `.strip()` on a non-string raises
`AttributeError`. -/
def checkFieldJ (v : Json) : Except PyErr String :=
  if truthy v = false then .error .valueError
  else match v with
    | .str s => if pyStrip s = "" then .error .valueError else .ok s
    | _ => .error .attributeError

/-- `Event.validate`'s action check:
`if self.action not in valid_actions: raise ValueError`. -/
def checkAction (a : String) : Except PyErr String :=
  if validActions.contains a then .ok a else .error .valueError

/-- `Event.validate` on a fully constructed record, as a boolean:
`true` iff `validate` returns rather than raising. -/
def validateB (e : Event) : Bool :=
  match (do
    let _ ← checkStrS e.request_id
    let _ ← checkStrS e.author
    let _ ← checkAction e.action
    let _ ← checkStrS e.from_branch
    let _ ← checkStrS e.to_branch
    Except.ok () : Except PyErr Unit) with
  | .ok _ => true
  | .error _ => false

/-- `Event.to_api_response`'s timestamp serialization:
`self.timestamp.isoformat() + "Z"`. -/
def digitChar (n : Nat) : Char := Char.ofNat (48 + n)

/-- Two-digit zero-padded decimal, as `datetime.isoformat` prints a
month/day/hour/minute/second field. -/
def pad2 (n : Nat) : String := ⟨[digitChar (n / 10 % 10), digitChar (n % 10)]⟩

/-- Four-digit zero-padded decimal, as `datetime.isoformat` prints a year. -/
def pad4 (n : Nat) : String :=
  ⟨[digitChar (n / 1000 % 10), digitChar (n / 100 % 10), digitChar (n / 10 % 10),
    digitChar (n % 10)]⟩

/-- `datetime.isoformat()` on a naive datetime with zero microseconds. -/
def isoFormat (t : DateTime) : String :=
  pad4 t.year ++ "-" ++ pad2 t.month ++ "-" ++ pad2 t.day ++ "T" ++
    pad2 t.hour ++ ":" ++ pad2 t.minute ++ ":" ++ pad2 t.second

/-- The serialized record returned by `Event.to_api_response`. -/
structure ApiEvent where
  request_id : String
  author : String
  action : String
  from_branch : String
  to_branch : String
  timestamp : String
deriving DecidableEq

/-- `Event.to_api_response`: same fields, timestamp as `isoformat() + "Z"`. -/
def toApiResponse (e : Event) : ApiEvent :=
  ⟨e.request_id, e.author, e.action, e.from_branch, e.to_branch, isoFormat e.timestamp ++ "Z"⟩

/-! ## The payload normalizer (`app/services/event_parser.py`) -/

/-- `_parse_timestamp` on a string argument (`event_parser.py` lines
218-241): empty string falls back to `now`; otherwise a trailing `"Z"` is
rewritten to `"+00:00"`, the string is parsed with `fromisoformat` (a
`ValueError` falls back to `now` = `datetime.utcnow()`), and the result is
converted to UTC and stripped of its offset marker. -/
def parseTimestampCore (now : DateTime) (s : String) : DateTime :=
  if s = "" then now
  else
    let s2 := if pyEndsWith s "Z" then pyDropLast s ++ "+00:00" else s
    match pyFromIso s2 with
    | none => now
    | some pd => utcNaive pd

/-- `_parse_timestamp` on the raw payload value: `if not timestamp_str`
falls back to `now`; `timestamp_str.endswith` raises `AttributeError` on a
truthy non-string (that exception is *not* caught inside `_parse_timestamp`,
whose `except` clause only catches `ValueError`). -/
def parseTimestampJ (now : DateTime) (v : Json) : Except PyErr DateTime :=
  if truthy v = false then .ok now
  else match v with
    | .str s => .ok (parseTimestampCore now s)
    | _ => .error .attributeError

/-- The body of `parse_push_event` (`event_parser.py` lines 49-90), i.e.
everything inside its `try:` block, with exceptions explicit.  `.ok none`
is the `return None` for a missing commit hash; the final construction runs
`Event.validate` field checks in source order. -/
def parsePushBody (now : DateTime) (payload : Json) : Except PyErr (Option Event) := do
  let refv ← pyGet payload "ref" (.str "")
  let branchName ← (if truthy refv then
      match refv with
      | .str s => Except.ok (pyRemoveRefsHeads s)
      | _ => Except.error PyErr.attributeError
    else Except.ok "unknown")
  let headCommit ← pyGet payload "head_commit" (.obj .nil)
  let ch0 ← pyGet headCommit "id" (.str "")
  let commitHash ← (if truthy ch0 = false then pyGet payload "after" (.str "") else Except.ok ch0)
  if truthy commitHash = false then
    Except.ok none
  else do
    let pusher ← pyGet payload "pusher" (.obj .nil)
    let authorJ ← pyGet pusher "name" (.str "unknown")
    let tsv ← pyGet headCommit "timestamp" (.str "")
    let ts ← parseTimestampJ now tsv
    let rid ← checkFieldJ commitHash
    let authorS ← checkFieldJ authorJ
    let act ← checkAction ActionType.PUSH
    let fromS ← checkStrS branchName
    let toS ← checkStrS branchName
    Except.ok (some ⟨rid, authorS, act, fromS, toS, ts⟩)

/-- `parse_push_event`: the `try/except Exception` wrapper converts any
escaped exception into `None`. -/
def parsePushEvent (now : DateTime) (payload : Json) : Option Event :=
  match parsePushBody now payload with
  | .ok r => r
  | .error _ => none

/-- `parse_push_event` viewed at the exception level: the computation the
intake handler actually observes (the handler can only see a normal return,
because the `except Exception` clause catches everything). -/
def parsePushEventE (now : DateTime) (payload : Json) : Except PyErr (Option Event) :=
  match parsePushBody now payload with
  | .ok r => .ok r
  | .error _ => .ok none

/-- `github_action in ["opened", "reopened", "synchronize"]`
(`event_parser.py` line 144). -/
def trackedPRAction (ga : Json) : Bool :=
  jStrEq ga "opened" || jStrEq ga "reopened" || jStrEq ga "synchronize"

/-- The body of `parse_pull_request_event` (`event_parser.py` lines
125-193), everything inside its `try:` block, with exceptions explicit. -/
def parsePullRequestBody (now : DateTime) (payload : Json) : Except PyErr (Option Event) := do
  let ga ← pyGet payload "action" (.str "")
  let prData ← pyGet payload "pull_request" (.obj .nil)
  if truthy prData = false then
    Except.ok none
  else do
    let isMerged ← pyGet prData "merged" (.bool false)
    let isClosed := jStrEq ga "closed"
    match (if isClosed && truthy isMerged then some ActionType.MERGE
           else if trackedPRAction ga then some ActionType.PULL_REQUEST
           else none) with
    | none => Except.ok none
    | some actionType => do
      let inner ← pyGet prData "id" (.str "")
      let prNumber ← pyGet prData "number" inner
      let rid0 := "PR-" ++ pyStr prNumber
      let rid := if actionType = ActionType.MERGE then "MERGE-" ++ pyStr prNumber else rid0
      let userData ← pyGet prData "user" (.obj .nil)
      let authorJ ← pyGet userData "login" (.str "unknown")
      let headData ← pyGet prData "head" (.obj .nil)
      let baseData ← pyGet prData "base" (.obj .nil)
      let fromJ ← pyGet headData "ref" (.str "unknown")
      let toJ ← pyGet baseData "ref" (.str "unknown")
      let tsv ← (if actionType = ActionType.MERGE then pyGet prData "merged_at" (.str "")
                 else do
                   let inner2 ← pyGet prData "updated_at" (.str "")
                   pyGet prData "created_at" inner2)
      let ts ← parseTimestampJ now tsv
      let ridS ← checkStrS rid
      let authorS ← checkFieldJ authorJ
      let act ← checkAction actionType
      let fromS ← checkFieldJ fromJ
      let toS ← checkFieldJ toJ
      Except.ok (some ⟨ridS, authorS, act, fromS, toS, ts⟩)

/-- `parse_pull_request_event`: the `try/except Exception` wrapper converts
any escaped exception into `None`. -/
def parsePullRequestEvent (now : DateTime) (payload : Json) : Option Event :=
  match parsePullRequestBody now payload with
  | .ok r => r
  | .error _ => none

/-- `parse_pull_request_event` viewed at the exception level. -/
def parsePullRequestEventE (now : DateTime) (payload : Json) : Except PyErr (Option Event) :=
  match parsePullRequestBody now payload with
  | .ok r => .ok r
  | .error _ => .ok none

/-! ## The event store and service (`app/services/event_service.py`,
`app/utils/database.py`, `app/config.py`)

MongoDB is modelled as the list of stored documents, in insertion order.
`to_dict` keeps exactly the `Event` fields and `from_db_document` rebuilds
the same fields, so a stored document is modelled by the `Event` itself.
The unique index `request_id_unique_idx` created by `init_database` is
modelled inside the insert: an insert whose `request_id` is already present
raises `DuplicateKeyError` instead of appending. -/

/-- `Config.EVENT_TIME_WINDOW` (`config.py` line 58). -/
def Config.EVENT_TIME_WINDOW : Nat := 15

/-- `save_event` (`event_service.py` lines 29-77).  `fault` injects a
transport/storage failure (e.g. `pymongo.errors.ConnectionFailure` or any
other query failure raised by `get_collection()` / `insert_one`); every
exception class is caught by the function's own handlers, and each handler
`return`s `False`: a `ValueError` from `validate`, a `DuplicateKeyError`
from the unique index, and any other `Exception` (the fault) all map to
`False`.  Returns the flag and the resulting store contents. -/
def saveEvent (fault : Bool) (e : Event) (st : List Event) : Bool × List Event :=
  if validateB e = false then (false, st)
  else if fault then (false, st)
  else if st.any (fun d => d.request_id == e.request_id) then (false, st)
  else (true, st ++ [e])

/-- The sort key of `cursor.sort("timestamp", -1)`: `a` before `b` when
`a.timestamp ≥ b.timestamp` (newest first). -/
def tsGe (a b : Event) : Prop := dtSecs b.timestamp ≤ dtSecs a.timestamp

instance : DecidableRel tsGe := fun _ _ => Nat.decLe _ _

instance : IsTotal Event tsGe := ⟨fun a b => Nat.le_total (dtSecs b.timestamp) (dtSecs a.timestamp)⟩

instance : IsTrans Event tsGe := ⟨fun _ _ _ h1 h2 => Nat.le_trans h2 h1⟩

/-- `cursor.sort("timestamp", -1)`: the stored documents ordered newest
first (a deterministic total order; ties keep a fixed deterministic order,
which the contract leaves unspecified). -/
def sortTsDesc (l : List Event) : List Event := List.insertionSort tsGe l

/-- `cursor.limit(n)` with PyMongo/MongoDB semantics: `limit(0)` means *no
limit*, a negative limit behaves like its absolute value. -/
def mongoLimit (n : Int) (l : List α) : List α :=
  if n = 0 then l else l.take n.natAbs

/-- The query bound built by `get_recent_events` (`event_service.py` lines
106-112): the given instant, or `utcnow() - timedelta(seconds =
EVENT_TIME_WINDOW)` when none was given. -/
def recentBound (now : DateTime) (since : Option DateTime) : DateTime :=
  match since with
  | some s => s
  | none => subSeconds now Config.EVENT_TIME_WINDOW

/-- The document sequence produced inside `get_recent_events`
(`event_service.py` lines 101-115): filter `timestamp $gt` the bound, then
sort newest first and apply the limit. -/
def getRecentDocs (now : DateTime) (st : List Event) (since : Option DateTime)
    (limit : Int) : List Event :=
  mongoLimit limit
    (sortTsDesc (st.filter (fun e => dtLtB (recentBound now since) e.timestamp)))

/-- `get_recent_events` (`event_service.py` lines 80-124): the cursor
documents of `getRecentDocs`, each passed through `Event.from_db_document`
(the identity on documents written by `to_dict`) and `to_api_response`. -/
def getRecentEvents (now : DateTime) (st : List Event) (since : Option DateTime)
    (limit : Int) : List ApiEvent :=
  (getRecentDocs now st since limit).map toApiResponse

/-- The document sequence inside `get_all_events` (`event_service.py`
line 144): all documents, newest first, limited — no time filter and, in
particular, **no clamping of the limit**. -/
def getAllDocs (st : List Event) (limit : Int) : List Event :=
  mongoLimit limit (sortTsDesc st)

/-- `get_all_events` (`event_service.py` lines 127-152). -/
def getAllEvents (st : List Event) (limit : Int) : List ApiEvent :=
  (getAllDocs st limit).map toApiResponse

/-- `get_events_count`: `collection.count_documents({})`. -/
def getEventsCount (st : List Event) : Nat := st.length

/-! ## The HTTP handlers (`app/routes/webhook.py`, `app/routes/events.py`) -/

/-- The core of `handle_webhook` (`webhook.py` lines 52-116): the response
`status` string and HTTP code, plus the resulting store.  `payload` is the
value of `request.get_json()` (`None` for a missing body); `fault` is
passed to `save_event`. -/
def handleWebhook (now : DateTime) (fault : Bool) (eventType : String) (payload : Json)
    (st : List Event) : (String × Nat) × List Event :=
  if truthy payload = false then (("error", 400), st)
  else if eventType = "ping" then (("success", 200), st)
  else
    match (if eventType = "push" then some (parsePushEvent now payload)
           else if eventType = "pull_request" then some (parsePullRequestEvent now payload)
           else none) with
    | none => (("ignored", 200), st)
    | some none => (("error", 400), st)
    | some (some e) =>
      let r := saveEvent fault e st
      if r.1 = true then (("success", 200), r.2) else (("duplicate", 200), r.2)

/-- The limit validation of `get_events` (`events.py` lines 62-66):
`if limit < 1: limit = 1 elif limit > 100: limit = 100`. -/
def clampLimit (n : Int) : Int :=
  if n < 1 then 1 else if n > 100 then 100 else n

/-- The `since`-parsing of `get_events` (`events.py` lines 69-82): rewrite a
trailing `"Z"` to `"+00:00"`, parse with `datetime.fromisoformat`, then
`replace(tzinfo=None)` — which *keeps the clock fields unchanged* (there is
no `astimezone` call here, unlike `_parse_timestamp`).  `none` is the
`except ValueError` branch, which the route answers with HTTP 400 and
status `"error"`. -/
def parseSinceParam (s : String) : Option DateTime :=
  let s2 := if pyEndsWith s "Z" then pyDropLast s ++ "+00:00" else s
  (pyFromIso s2).map (fun pd => pd.dt)

/-! ## Well-formedness of pull-request payloads

`parse_pull_request_event` reads its payload defensively but not totally:
a nested field of an unexpected runtime type makes an extraction raise, and
the blanket handler then returns `None`.  The predicates below delimit the
payloads on which the extraction chain is exception-free and the extracted
fields survive `Event.validate` — the hypotheses under which the claimed
action/`request_id` classification holds. -/

/-- A value usable as a defaulted name field (`login`, `ref`): absent, or a
string that is non-empty after `strip()` (so `Event.validate` accepts it). -/
def wfName : Option Json → Bool
  | none => true
  | some (.str s) => pyStrip s != ""
  | some _ => false

/-- A value usable as a defaulted sub-object (`user`, `head`, `base`) whose
`field` is then read as a name: absent, or an object whose `field` is a
well-formed name. -/
def wfObjWith (o : Option Json) (field : String) : Bool :=
  match o with
  | none => true
  | some (.obj u) => wfName (jlookup u field)
  | some _ => false

/-- A value usable as a timestamp field: absent, a string, or falsy
(a truthy non-string would make `timestamp_str.endswith` raise). -/
def wfTime : Option Json → Bool
  | none => true
  | some (.str _) => true
  | some v => !truthy v

/-- A value usable as the `merged` flag: absent or an honest boolean. -/
def wfMerged : Option Json → Bool
  | none => true
  | some (.bool _) => true
  | some _ => false

/-- A well-formed pull-request payload: an object carrying a non-empty
`pull_request` object whose optional fields have the runtime types the
extraction chain expects (`number`/`id` are unconstrained — any value can
be interpolated into the f-string). -/
def wellFormedPR (p : Json) : Bool :=
  match p with
  | .obj kvs =>
    match jlookup kvs "pull_request" with
    | some (.obj prkvs) =>
      truthy (.obj prkvs) &&
      wfMerged (jlookup prkvs "merged") &&
      wfObjWith (jlookup prkvs "user") "login" &&
      wfObjWith (jlookup prkvs "head") "ref" &&
      wfObjWith (jlookup prkvs "base") "ref" &&
      wfTime (jlookup prkvs "merged_at") &&
      wfTime (jlookup prkvs "created_at") &&
      wfTime (jlookup prkvs "updated_at")
    | _ => false
  | _ => false

/-- Does the payload carry a `pull_request` field that is a JSON object
(possibly empty)?  The claim's "payload with no pull_request object" is the
negation of this. -/
def hasPRObject (p : Json) : Bool :=
  match p with
  | .obj kvs =>
    match jlookup kvs "pull_request" with
    | some (.obj _) => true
    | _ => false
  | _ => false

/-! ## Concrete fixtures used by witnesses and counterexamples -/

/-- A fixed processing instant (2024-01-26 15:30:20 UTC). -/
def now0 : DateTime := ⟨2024, 1, 26, 15, 30, 20⟩

/-- A well-formed push payload: branch `main`, commit `abc123`, pusher
`alice`, commit timestamp `2024-01-26T15:30:00Z`. -/
def payloadPushMain : Json :=
  .obj (.cons "ref" (.str "refs/heads/main")
    (.cons "head_commit" (.obj (.cons "id" (.str "abc123")
      (.cons "timestamp" (.str "2024-01-26T15:30:00Z") .nil)))
    (.cons "pusher" (.obj (.cons "name" (.str "alice") .nil)) .nil)))

/-- A push payload whose ref is not of the `refs/heads/<name>` form. -/
def payloadPushTag : Json :=
  .obj (.cons "ref" (.str "refs/tags/v1.0")
    (.cons "head_commit" (.obj (.cons "id" (.str "c1") .nil))
    (.cons "pusher" (.obj (.cons "name" (.str "alice") .nil)) .nil)))

/-- A push payload whose ref contains `refs/heads/` in the middle. -/
def payloadPushMid : Json :=
  .obj (.cons "ref" (.str "a/refs/heads/b")
    (.cons "head_commit" (.obj (.cons "id" (.str "c2") .nil))
    (.cons "pusher" (.obj (.cons "name" (.str "alice") .nil)) .nil)))

/-- A pull-request payload with a tracked action and a present but *empty*
`pull_request` object. -/
def payloadPREmpty : Json :=
  .obj (.cons "action" (.str "opened") (.cons "pull_request" (.obj .nil) .nil))

/-- A merged-close pull-request payload whose `user` field is a number
rather than an object. -/
def payloadPRBadUser : Json :=
  .obj (.cons "action" (.str "closed")
    (.cons "pull_request" (.obj (.cons "merged" (.bool true)
      (.cons "user" (.int 5) .nil))) .nil))

/-- A well-formed merged-close pull-request payload, PR number 7. -/
def payloadPRMerge : Json :=
  .obj (.cons "action" (.str "closed")
    (.cons "pull_request" (.obj (.cons "merged" (.bool true)
      (.cons "number" (.int 7) .nil))) .nil))

/-- The `pull_request` object of `payloadPRBare`: a `user`, but neither a
`number` nor an `id` field. -/
def prBareObj : JsonObj :=
  .cons "user" (.obj (.cons "login" (.str "alice") .nil)) .nil

/-- The top-level object of `payloadPRBare`. -/
def kvsBare : JsonObj :=
  .cons "action" (.str "opened") (.cons "pull_request" (.obj prBareObj) .nil)

/-- A tracked pull-request payload whose `pull_request` object carries
neither a `number` nor an `id` field. -/
def payloadPRBare : Json := .obj kvsBare

/-- A stored event fixture. -/
def evtA : Event := ⟨"a1", "alice", "PUSH", "main", "main", ⟨2024, 1, 26, 15, 30, 0⟩⟩

/-- An event stored 10 seconds before `now0`. -/
def evt10 : Event := ⟨"r10", "alice", "PUSH", "main", "main", ⟨2024, 1, 26, 15, 30, 10⟩⟩

/-- An event stored 20 seconds before `now0`. -/
def evt20 : Event := ⟨"r20", "bob", "PUSH", "dev", "dev", ⟨2024, 1, 26, 15, 30, 0⟩⟩

/-- An early query bound (2024-01-26 15:00:00), before both fixtures. -/
def since0 : DateTime := ⟨2024, 1, 26, 15, 0, 0⟩

/-- The record `payloadPushMain` normalizes to. -/
def evtMain : Event := ⟨"abc123", "alice", "PUSH", "main", "main", ⟨2024, 1, 26, 15, 30, 0⟩⟩

/-- The record `payloadPRMerge` normalizes to (no timestamp fields in the
payload, so the wall clock `now0` is used). -/
def evtMerge7 : Event := ⟨"MERGE-7", "unknown", "MERGE", "unknown", "unknown", now0⟩

/-- The record `payloadPRBare` normalizes to: bare `"PR-"` request id. -/
def evtBare : Event := ⟨"PR-", "alice", "PULL_REQUEST", "unknown", "unknown", now0⟩

/-! ## Claim theorems -/

/-- C7: parsing the timestamp string `"2024-01-26T15:30:00Z"` yields the
UTC-naive instant 2024-01-26T15:30:00, and serializing that stored instant
as `Event.to_api_response` does (`isoformat() + "Z"`) yields
`"2024-01-26T15:30:00Z"` again — parse followed by serialize is the
identity on this input, for every wall-clock value (the fallback clock is
not consulted). -/
theorem timestamp_roundtrip_C7 :
    ∀ now : DateTime,
      parseTimestampJ now (.str "2024-01-26T15:30:00Z") = .ok ⟨2024, 1, 26, 15, 30, 0⟩ ∧
      isoFormat ⟨2024, 1, 26, 15, 30, 0⟩ ++ "Z" = "2024-01-26T15:30:00Z" :=
  fun _ => ⟨rfl, rfl⟩

/-- C4 (divergence evidence): the Event Query Handler's `since` parsing does
*not* convert a non-zero UTC offset to UTC before dropping the offset
marker: `since=2024-01-26T15:30:00+05:00` produces the naive filter instant
15:30:00, while the same point in time expressed in UTC (what the shared
timestamp rule, `utcNaive` after `fromisoformat`, produces) is 10:30:00.
The rejection half of the claim does hold: an unparseable `since` yields
`none`, which `get_events` answers with HTTP 400. -/
theorem since_offset_not_converted_C4 :
    parseSinceParam "2024-01-26T15:30:00+05:00" = some ⟨2024, 1, 26, 15, 30, 0⟩ ∧
    utcNaive ⟨⟨2024, 1, 26, 15, 30, 0⟩, some 300⟩ = ⟨2024, 1, 26, 10, 30, 0⟩ ∧
    (⟨2024, 1, 26, 15, 30, 0⟩ : DateTime) ≠ ⟨2024, 1, 26, 10, 30, 0⟩ ∧
    parseSinceParam "not-a-date" = none := by
  refine ⟨rfl, rfl, by decide, rfl⟩

/-- C5 (divergence evidence): a transport/storage fault raised inside
`Store.insert` while handling a valid push webhook is caught by
`save_event`'s blanket `except Exception` clause, which returns `False`;
`handle_webhook` maps `False` to the response status `"duplicate"` with
HTTP 200 — not to a generic server failure.  Without the fault the same
request succeeds, showing the fault alone flips the status. -/
theorem storage_fault_reported_as_duplicate_C5 :
    (handleWebhook now0 true "push" payloadPushMain []).1 = ("duplicate", 200) ∧
    ("duplicate", 200) ≠ (("error" : String), (500 : Nat)) ∧
    (handleWebhook now0 false "push" payloadPushMain []).1 = ("success", 200) := by
  refine ⟨by decide, by decide, by decide⟩

/-- C1 (counterexample): two pull-request payloads that each contain a
`pull_request` object and carry a tracked upstream action, yet normalize to
not-applicable rather than to the record the claim promises — one whose
`pull_request` object is empty (Python truthiness treats `{}` like a
missing object), and one merged-close payload whose `user` field is a
number (the defensive `.get` chain raises and the blanket handler returns
`None`). -/
theorem pr_actions_C1_cex :
    parsePullRequestEvent now0 payloadPREmpty = none ∧
    parsePullRequestEvent now0 payloadPRBadUser = none := by
  refine ⟨by decide, by decide⟩

/-- C3 (counterexample): branch extraction is Python
`ref.replace("refs/heads/", "")`, not a prefix strip — a ref of unknown
form (`refs/tags/v1.0`) yields itself rather than `"unknown"`, and a ref
with `refs/heads/` in the middle (`a/refs/heads/b`) has the occurrence
removed (`a/b`) rather than being left intact. -/
theorem push_branch_C3_cex :
    (parsePushEvent now0 payloadPushTag).map (fun e => e.from_branch) = some "refs/tags/v1.0" ∧
    "refs/tags/v1.0" ≠ "unknown" ∧
    (parsePushEvent now0 payloadPushMid).map (fun e => e.from_branch) = some "a/b" ∧
    "a/b" ≠ "a/refs/heads/b" := by
  refine ⟨by decide, by decide, by decide, by decide⟩

/-- C6 (counterexample): the store operations themselves do not clamp the
limit — `get_all_events` with `limit = 0` (below 1) returns *all* stored
documents under MongoDB's `limit(0)`-means-unlimited semantics (2 documents
instead of the claimed 1), and with `limit = 101` it returns 101 documents,
more than the claimed 100-element cap. -/
theorem store_limit_unclamped_C6_cex :
    (getAllEvents [evtA, evtA] 0).length = 2 ∧ (2 : Nat) ≠ 1 ∧
    (getAllEvents (List.replicate 101 evtA) 101).length = 101 ∧ (101 : Nat) > 100 := by
  refine ⟨by decide, by decide, by decide, by decide⟩

/-- C9 (counterexample): with a limit smaller than the number of matching
documents, `get_recent_events` does not return *exactly* the stored records
newer than `since` — two stored fixtures match `since0` but `limit = 1`
returns only one. -/
theorem queryRecent_truncates_C9_cex :
    (getRecentDocs now0 [evt10, evt20] (some since0) 1).length = 1 ∧
    (([evt10, evt20] : List Event).filter (fun e => dtLtB since0 e.timestamp)).length = 2 := by
  refine ⟨by decide, by decide⟩

/-- C2: inserting a valid, not-yet-stored event twice yields `True`
(Inserted) on the first insert and `False` (DuplicateSkipped, the caught
`DuplicateKeyError`) on the second — never an escaped error —, the second
insert leaves the store exactly as it was (the existing record is not
altered), and the store count grows by exactly 1 across the pair. -/
theorem insert_idempotent_C2 (e : Event) (st : List Event)
    (hv : validateB e = true)
    (hfresh : st.any (fun d => d.request_id == e.request_id) = false) :
    (saveEvent false e st).1 = true ∧
    (saveEvent false e (saveEvent false e st).2).1 = false ∧
    (saveEvent false e (saveEvent false e st).2).2 = (saveEvent false e st).2 ∧
    getEventsCount (saveEvent false e st).2 = getEventsCount st + 1 := by
  have h1 : saveEvent false e st = (true, st ++ [e]) := by
    simp [saveEvent, hv, hfresh]
  have h2 : saveEvent false e (st ++ [e]) = (false, st ++ [e]) := by
    simp [saveEvent, hv, List.any_append]
  rw [h1, h2]
  simp [getEventsCount]

/-- C2 witness: the idempotent pair at a concrete valid event on the empty
store. -/
theorem insert_idempotent_C2_witness :
    (saveEvent false evtA []).1 = true ∧
    (saveEvent false evtA (saveEvent false evtA []).2).1 = false ∧
    (saveEvent false evtA (saveEvent false evtA []).2).2 = (saveEvent false evtA []).2 ∧
    getEventsCount (saveEvent false evtA []).2 = getEventsCount [] + 1 :=
  insert_idempotent_C2 evtA [] (by decide) (by decide)

/-- C8: normalization never propagates an exception to the intake handler —
for every wall clock and every raw payload value, however malformed, both
parsers observed at the exception level return normally (`Except.ok`),
with either an event record or not-applicable inside; every exception of
the extraction chain is absorbed by the `except Exception` clause. -/
theorem normalize_no_exception_C8 (now : DateTime) (p : Json) :
    (∃ r : Option Event, parsePushEventE now p = .ok r) ∧
    (∃ r : Option Event, parsePullRequestEventE now p = .ok r) := by
  constructor
  · unfold parsePushEventE
    split <;> exact ⟨_, rfl⟩
  · unfold parsePullRequestEventE
    split <;> exact ⟨_, rfl⟩

/-- C6 (amended): the clamp lives in the HTTP handler `get_events`, not in
the store operations — for every requested limit, the handler's clamped
value lies in `[1, 100]`, and the store operations called with the clamped
value return at most 100 elements. -/
theorem limit_clamped_in_route_C6 (n : Int) (now : DateTime) (st : List Event)
    (since : Option DateTime) :
    1 ≤ clampLimit n ∧ clampLimit n ≤ 100 ∧
    (getAllEvents st (clampLimit n)).length ≤ 100 ∧
    (getRecentEvents now st since (clampLimit n)).length ≤ 100 := by
  have hb : 1 ≤ clampLimit n ∧ clampLimit n ≤ 100 := by
    unfold clampLimit
    split
    · omega
    · split <;> omega
  have hlen : ∀ l : List Event, (mongoLimit (clampLimit n) l).length ≤ 100 := by
    intro l
    unfold mongoLimit
    rw [if_neg (by omega)]
    rw [List.length_take]
    have : (clampLimit n).natAbs ≤ 100 := by omega
    omega
  refine ⟨hb.1, hb.2, ?_, ?_⟩
  · simpa [getAllEvents, getAllDocs] using hlen (sortTsDesc st)
  · simpa [getRecentEvents, getRecentDocs] using
      hlen (sortTsDesc (st.filter (fun e => dtLtB (recentBound now since) e.timestamp)))

/-! ### Helper lemmas for the symbolic walks through the parser bodies -/

/-- `ok a >>= f` computes to `f a`. -/
theorem exceptBind_ok_eq {α β ε : Type} (a : α) (f : α → Except ε β) :
    (Except.ok a >>= f) = f a := rfl

/-- Inversion of a successful `Except` bind. -/
theorem exceptBind_ok {α β ε : Type} {x : Except ε α} {f : α → Except ε β} {b : β}
    (h : x >>= f = .ok b) : ∃ a, x = .ok a ∧ f a = .ok b := by
  cases x with
  | ok a => exact ⟨a, rfl, h⟩
  | error err => exact absurd h (by simp [Bind.bind, Except.bind])

/-- Inversion of a successful `checkStrS`. -/
theorem checkStrS_eq_ok {s t : String} (h : checkStrS s = .ok t) :
    t = s ∧ s ≠ "" ∧ pyStrip s ≠ "" := by
  unfold checkStrS at h
  split at h
  · exact absurd h (by simp)
  · split at h
    · exact absurd h (by simp)
    · cases h
      refine ⟨rfl, by assumption, by assumption⟩

/-- A non-empty string with non-whitespace content passes the string-field
check of `Event.validate`. -/
theorem checkStrS_ok_self {s : String} (h1 : s ≠ "") (h2 : pyStrip s ≠ "") :
    checkStrS s = .ok s := by
  unfold checkStrS
  rw [if_neg h1, if_neg h2]

/-- Inversion of a successful `checkFieldJ`: the raw value was a string
which passes the string-field check. -/
theorem checkFieldJ_eq_ok {v : Json} {s : String} (h : checkFieldJ v = .ok s) :
    v = .str s ∧ s ≠ "" ∧ pyStrip s ≠ "" := by
  unfold checkFieldJ at h
  split at h
  · exact absurd h (by simp)
  · rename_i htr
    split at h
    · rename_i s'
      split at h
      · exact absurd h (by simp)
      · cases h
        refine ⟨rfl, ?_, by assumption⟩
        simpa [truthy] using htr
    · exact absurd h (by simp)

/-- A non-empty string with non-whitespace content passes the raw-field
check. -/
theorem checkFieldJ_ok_str {s : String} (h1 : s ≠ "") (h2 : pyStrip s ≠ "") :
    checkFieldJ (.str s) = .ok s := by
  unfold checkFieldJ
  rw [if_neg (by simp [truthy, h1])]
  simp [h2]

/-- Inversion of a successful `checkAction`. -/
theorem checkAction_eq_ok {a b : String} (h : checkAction a = .ok b) :
    b = a ∧ validActions.contains a = true := by
  unfold checkAction at h
  split at h
  · cases h; exact ⟨rfl, by assumption⟩
  · exact absurd h (by simp)

/-- A string containing a non-whitespace character does not strip to the
empty string. -/
theorem pyStrip_ne_empty {s : String} {c : Char} (hc : c ∈ s.data)
    (hcs : pySpace c = false) : pyStrip s ≠ "" := by
  intro h
  have hd : ((s.data.dropWhile pySpace).reverse.dropWhile pySpace).reverse = [] := by
    simpa [pyStrip] using congrArg String.data h
  rw [List.reverse_eq_nil_iff] at hd
  have hall : ∀ x ∈ (s.data.dropWhile pySpace).reverse, pySpace x :=
    List.dropWhile_eq_nil_iff.mp hd
  have hsplit := List.takeWhile_append_dropWhile pySpace s.data
  have : c ∈ s.data.takeWhile pySpace ∨ c ∈ s.data.dropWhile pySpace := by
    rw [← List.mem_append, hsplit]; exact hc
  rcases this with hIn | hIn
  · exact absurd (List.mem_takeWhile_imp hIn) (by simp [hcs])
  · exact absurd (hall c (List.mem_reverse.mpr hIn)) (by simp [hcs])

/-- Every string extended from `pre` keeps `pre` as a prefix. -/
theorem strStartsWith_append (pre x : String) : strStartsWith (pre ++ x) pre = true := by
  unfold strStartsWith
  rw [String.data_append]
  exact List.isPrefixOf_iff_prefix.mpr (List.prefix_append _ _)

/-- A string extended from a `pre` containing a non-whitespace character
passes `Event.validate`'s string-field check. -/
theorem checkStrS_append_ok {pre : String} {c : Char} (hc : c ∈ pre.data)
    (hcs : pySpace c = false) (x : String) : checkStrS (pre ++ x) = .ok (pre ++ x) := by
  apply checkStrS_ok_self
  · intro h
    have h' : pre.data ++ x.data = [] := by
      have := congrArg String.data h
      rwa [String.data_append] at this
    have hpre : pre.data = [] := (List.append_eq_nil.mp h').1
    rw [hpre] at hc
    cases hc
  · refine pyStrip_ne_empty ?_ hcs
    rw [String.data_append]
    exact List.mem_append_left _ hc

/-- C3 (amended): every push payload that normalizes to a record gets
`action = PUSH` and `from_branch = to_branch`; when the payload's ref field
is a string `s`, that common branch name is `s` with every occurrence of
`refs/heads/` removed (Python `replace`), and `"unknown"` exactly when the
ref is empty — a ref of unknown form keeps its remaining text instead of
becoming `"unknown"`. -/
theorem push_branch_C3 (now : DateTime) (p : Json) (e : Event)
    (h : parsePushEvent now p = some e) :
    e.action = ActionType.PUSH ∧ e.from_branch = e.to_branch ∧
    (∀ s, jGetD p "ref" (.str "") = .str s →
      e.from_branch = (if s = "" then "unknown" else pyRemoveRefsHeads s)) := by
  unfold parsePushEvent at h
  split at h
  case h_2 => exact absurd h (by simp)
  case h_1 r heq =>
    subst h
    unfold parsePushBody at heq
    obtain ⟨refv, h1, heq⟩ := exceptBind_ok heq
    obtain ⟨branchName, h2, heq⟩ := exceptBind_ok heq
    obtain ⟨headCommit, h3, heq⟩ := exceptBind_ok heq
    obtain ⟨ch0, h4, heq⟩ := exceptBind_ok heq
    obtain ⟨commitHash, h5, heq⟩ := exceptBind_ok heq
    by_cases hch : truthy commitHash = false
    · rw [if_pos hch] at heq
      exact absurd heq (by simp)
    · rw [if_neg hch] at heq
      obtain ⟨pusher, h6, heq⟩ := exceptBind_ok heq
      obtain ⟨authorJ, h7, heq⟩ := exceptBind_ok heq
      obtain ⟨tsv, h8, heq⟩ := exceptBind_ok heq
      obtain ⟨ts, h9, heq⟩ := exceptBind_ok heq
      obtain ⟨rid, h10, heq⟩ := exceptBind_ok heq
      obtain ⟨authorS, h11, heq⟩ := exceptBind_ok heq
      obtain ⟨act, h12, heq⟩ := exceptBind_ok heq
      obtain ⟨fromS, h13, heq⟩ := exceptBind_ok heq
      obtain ⟨toS, h14, heq⟩ := exceptBind_ok heq
      have he : e = ⟨rid, authorS, act, fromS, toS, ts⟩ := by
        have := heq
        simp only [Except.ok.injEq, Option.some.injEq] at this
        exact this.symm
      subst he
      have hact : act = ActionType.PUSH := by
        have : checkAction ActionType.PUSH = .ok ActionType.PUSH := rfl
        rw [this] at h12
        simpa using h12.symm
      have hfrom : fromS = branchName := (checkStrS_eq_ok h13).1
      have hto : toS = branchName := (checkStrS_eq_ok h14).1
      refine ⟨hact, by rw [hfrom, hto], ?_⟩
      intro s hs
      cases p with
      | obj kvs =>
        have hrv : refv = (jlookup kvs "ref").getD (.str "") := by
          simpa [pyGet] using h1.symm
        have hs' : refv = .str s := by
          rw [hrv]; simpa [jGetD] using hs
        subst hs'
        by_cases hse : s = ""
        · subst hse
          rw [if_pos rfl]
          have : branchName = "unknown" := by
            rw [if_neg (by simp [truthy])] at h2
            simpa using h2.symm
          simpa [hfrom] using this
        · rw [if_neg hse]
          have : branchName = pyRemoveRefsHeads s := by
            rw [if_pos (by simp [truthy, hse])] at h2
            simpa using h2.symm
          simpa [hfrom] using this
      | null => exact absurd h1 (by simp [pyGet])
      | bool b => exact absurd h1 (by simp [pyGet])
      | int n => exact absurd h1 (by simp [pyGet])
      | str t => exact absurd h1 (by simp [pyGet])
      | arr l => exact absurd h1 (by simp [pyGet])

/-- C3 witness: the amended branch rule at the concrete `main`-branch push
payload. -/
theorem push_branch_C3_witness :
    evtMain.action = ActionType.PUSH ∧ evtMain.from_branch = evtMain.to_branch ∧
    evtMain.from_branch =
      (if ("refs/heads/main" : String) = "" then "unknown"
       else pyRemoveRefsHeads "refs/heads/main") := by
  have h := push_branch_C3 now0 payloadPushMain evtMain (by decide)
  exact ⟨h.1, h.2.1, h.2.2 "refs/heads/main" rfl⟩

/-- A well-formed name field yields a string that passes the raw-field
check (the default `"unknown"` when absent). -/
theorem nameField_str {o : Option Json} (h : wfName o = true) :
    ∃ s, o.getD (.str "unknown") = .str s ∧ checkFieldJ (.str s) = .ok s := by
  cases o with
  | none => exact ⟨"unknown", rfl, checkFieldJ_ok_str (by decide) (by decide)⟩
  | some v =>
    cases v with
    | str s =>
      have hs : pyStrip s ≠ "" := by simpa [wfName] using h
      have hne : s ≠ "" := by
        intro hempty
        subst hempty
        exact hs (by decide)
      exact ⟨s, rfl, checkFieldJ_ok_str hne hs⟩
    | null => simp [wfName] at h
    | bool b => simp [wfName] at h
    | int n => simp [wfName] at h
    | arr l => simp [wfName] at h
    | obj kvs => simp [wfName] at h

/-- A well-formed defaulted sub-object yields a `login`/`ref` extraction
that succeeds with a string passing the raw-field check. -/
theorem objField_ok {o : Option Json} {f : String} (h : wfObjWith o f = true) :
    ∃ s, pyGet (o.getD (.obj .nil)) f (.str "unknown") = .ok (.str s) ∧
      checkFieldJ (.str s) = .ok s := by
  cases o with
  | none => exact ⟨"unknown", rfl, checkFieldJ_ok_str (by decide) (by decide)⟩
  | some v =>
    cases v with
    | obj u =>
      obtain ⟨s, hs, hcf⟩ :=
        nameField_str (show wfName (jlookup u f) = true by simpa [wfObjWith] using h)
      exact ⟨s, by simp [pyGet, hs], hcf⟩
    | null => simp [wfObjWith] at h
    | bool b => simp [wfObjWith] at h
    | int n => simp [wfObjWith] at h
    | str s => simp [wfObjWith] at h
    | arr l => simp [wfObjWith] at h

/-- A well-formed timestamp value makes `_parse_timestamp` return without
raising. -/
theorem timeFieldVal_ok (now : DateTime) {v : Json} (h : wfTime (some v) = true) :
    ∃ t, parseTimestampJ now v = .ok t := by
  by_cases htr : truthy v = false
  · exact ⟨now, by simp [parseTimestampJ, htr]⟩
  · cases v with
    | str s => exact ⟨parseTimestampCore now s, by simp [parseTimestampJ, htr]⟩
    | null => exact absurd (by simpa [wfTime] using h) htr
    | bool b => exact absurd (by simpa [wfTime] using h) htr
    | int n => exact absurd (by simpa [wfTime] using h) htr
    | arr l => exact absurd (by simpa [wfTime] using h) htr
    | obj kvs => exact absurd (by simpa [wfTime] using h) htr

/-- A well-formed optional timestamp field (default `""`) parses without
raising. -/
theorem timeField_ok (now : DateTime) {o : Option Json} (h : wfTime o = true) :
    ∃ t, parseTimestampJ now (o.getD (.str "")) = .ok t := by
  cases o with
  | none => exact ⟨now, rfl⟩
  | some v => exact timeFieldVal_ok now h

/-- The `created_at`-with-`updated_at`-fallback chain parses without
raising when both fields are well-formed. -/
theorem timeField2_ok (now : DateTime) {o1 o2 : Option Json}
    (h1 : wfTime o1 = true) (h2 : wfTime o2 = true) :
    ∃ t, parseTimestampJ now (o1.getD (o2.getD (.str ""))) = .ok t := by
  cases o1 with
  | none => simpa using timeField_ok now h2
  | some v => exact timeFieldVal_ok now h1

/-- C10: a pull-request payload that normalizes to a record although its
`pull_request` object has neither a `number` nor an `id` field gets the
bare prefix as its `request_id` — exactly `"PR-"` (or `"MERGE-"` for a
merge) — which passes `Event.validate` as non-empty; submitting it to a
store that already holds that `request_id` is answered with the duplicate
outcome, so all such events collide on one `request_id` instead of being
treated as not-applicable. -/
theorem bare_pr_request_id_C10 (now : DateTime) (kvs prkvs : JsonObj) (e : Event)
    (h : parsePullRequestEvent now (.obj kvs) = some e)
    (hpr : jlookup kvs "pull_request" = some (.obj prkvs))
    (hnum : jlookup prkvs "number" = none)
    (hid : jlookup prkvs "id" = none) :
    e.request_id = (if e.action = ActionType.MERGE then "MERGE-" else "PR-") ∧
    validateB e = true ∧
    ∀ st : List Event, st.any (fun d => d.request_id == e.request_id) = true →
      saveEvent false e st = (false, st) := by
  unfold parsePullRequestEvent at h
  split at h
  case h_2 => exact absurd h (by simp)
  case h_1 r heq =>
    subst h
    unfold parsePullRequestBody at heq
    obtain ⟨ga, h1, heq⟩ := exceptBind_ok heq
    obtain ⟨prData, h2, heq⟩ := exceptBind_ok heq
    have hprd : prData = .obj prkvs := by
      simpa [pyGet, hpr] using h2.symm
    subst hprd
    by_cases htr : truthy (.obj prkvs) = false
    · rw [if_pos htr] at heq
      exact absurd heq (by simp)
    · rw [if_neg htr] at heq
      obtain ⟨isMerged, h3, heq⟩ := exceptBind_ok heq
      dsimp only at heq
      rcases hA : (if jStrEq ga "closed" && truthy isMerged then some ActionType.MERGE
                   else if trackedPRAction ga then some ActionType.PULL_REQUEST
                   else none) with _ | actionType
      · rw [hA] at heq
        exact absurd heq (by simp)
      · rw [hA] at heq
        obtain ⟨inner, h5, heq⟩ := exceptBind_ok heq
        have hinner : inner = .str "" := by
          simpa [pyGet, hid] using h5.symm
        subst hinner
        obtain ⟨prNumber, h6, heq⟩ := exceptBind_ok heq
        have hpn : prNumber = .str "" := by
          simpa [pyGet, hnum] using h6.symm
        subst hpn
        obtain ⟨userData, h7, heq⟩ := exceptBind_ok heq
        obtain ⟨authorJ, h8, heq⟩ := exceptBind_ok heq
        obtain ⟨headData, h9, heq⟩ := exceptBind_ok heq
        obtain ⟨baseData, h10, heq⟩ := exceptBind_ok heq
        obtain ⟨fromJ, h11, heq⟩ := exceptBind_ok heq
        obtain ⟨toJ, h12, heq⟩ := exceptBind_ok heq
        obtain ⟨tsv, h13, heq⟩ := exceptBind_ok heq
        obtain ⟨ts, h14, heq⟩ := exceptBind_ok heq
        obtain ⟨ridS, h15, heq⟩ := exceptBind_ok heq
        obtain ⟨authorS, h16, heq⟩ := exceptBind_ok heq
        obtain ⟨act, h17, heq⟩ := exceptBind_ok heq
        obtain ⟨fromS, h18, heq⟩ := exceptBind_ok heq
        obtain ⟨toS, h19, heq⟩ := exceptBind_ok heq
        have he : e = ⟨ridS, authorS, act, fromS, toS, ts⟩ := by
          have := heq
          simp only [Except.ok.injEq, Option.some.injEq] at this
          exact this.symm
        subst he
        have hact : act = actionType := (checkAction_eq_ok h17).1
        have hrid := checkStrS_eq_ok h15
        have hauth := checkFieldJ_eq_ok h16
        have hfrom := checkFieldJ_eq_ok h18
        have hto := checkFieldJ_eq_ok h19
        have hATcases : actionType = ActionType.MERGE ∨ actionType = ActionType.PULL_REQUEST := by
          split at hA
          · exact Or.inl (by simpa using hA.symm)
          · split at hA
            · exact Or.inr (by simpa using hA.symm)
            · exact absurd hA (by simp)
        have hridval : (if actionType = ActionType.MERGE then "MERGE-" ++ pyStr (.str "")
            else "PR-" ++ pyStr (.str "")) =
            (if actionType = ActionType.MERGE then "MERGE-" else "PR-") := by
          rcases hATcases with hM | hP
          · subst hM
            simp [pyStr]
          · subst hP
            rw [if_neg (by decide), if_neg (by decide)]
            simp [pyStr]
        have h1' : checkStrS ridS = .ok ridS := by
          rw [hrid.1]
          exact checkStrS_ok_self hrid.2.1 hrid.2.2
        have h2' : checkStrS authorS = .ok authorS :=
          checkStrS_ok_self hauth.2.1 hauth.2.2
        have h3' : checkAction act = .ok act := by
          rw [hact]
          rcases hATcases with hM | hP
          · rw [hM]; rfl
          · rw [hP]; rfl
        have h4' : checkStrS fromS = .ok fromS :=
          checkStrS_ok_self hfrom.2.1 hfrom.2.2
        have h5' : checkStrS toS = .ok toS :=
          checkStrS_ok_self hto.2.1 hto.2.2
        have hv : validateB (⟨ridS, authorS, act, fromS, toS, ts⟩ : Event) = true := by
          simp [validateB, h1', h2', h3', h4', h5', exceptBind_ok_eq]
        refine ⟨?_, hv, ?_⟩
        · show ridS = if act = ActionType.MERGE then "MERGE-" else "PR-"
          rw [hrid.1, hact]
          exact hridval
        · intro st hst
          simp [saveEvent, hv, hst]

/-- C10 witness: the bare request id, its validity and the store collision
at the concrete fixture payload. -/
theorem bare_pr_request_id_C10_witness :
    evtBare.request_id = (if evtBare.action = ActionType.MERGE then "MERGE-" else "PR-") ∧
    validateB evtBare = true ∧
    saveEvent false evtBare [evtBare] = (false, [evtBare]) := by
  have h := bare_pr_request_id_C10 now0 kvsBare prBareObj evtBare (by decide) rfl rfl rfl
  exact ⟨h.1, h.2.1, h.2.2 [evtBare] (by decide)⟩

/-- C9 (amended): `get_recent_events` returns exactly the stored records
with timestamp strictly greater than the provided instant — or strictly
greater than `now - EVENT_TIME_WINDOW` seconds when none is provided —
ordered newest first, *provided the number of matching records does not
exceed the limit* (otherwise the limit truncates the result, see the
counterexample); the serialized response is the image of exactly those
documents. -/
theorem queryRecent_filter_C9 (now : DateTime) (st : List Event) (since : Option DateTime)
    (limit : Int)
    (h : limit = 0 ∨
      (st.filter (fun e => dtLtB (recentBound now since) e.timestamp)).length ≤ limit.natAbs) :
    (getRecentDocs now st since limit).Perm
      (st.filter (fun e => dtLtB (recentBound now since) e.timestamp)) ∧
    List.Sorted tsGe (getRecentDocs now st since limit) ∧
    getRecentEvents now st since limit = (getRecentDocs now st since limit).map toApiResponse := by
  have hlen : (sortTsDesc (st.filter (fun e => dtLtB (recentBound now since) e.timestamp))).length
      = (st.filter (fun e => dtLtB (recentBound now since) e.timestamp)).length :=
    (List.perm_insertionSort tsGe _).length_eq
  have hfull : getRecentDocs now st since limit
      = sortTsDesc (st.filter (fun e => dtLtB (recentBound now since) e.timestamp)) := by
    unfold getRecentDocs mongoLimit
    rcases h with h0 | hle
    · rw [if_pos h0]
    · by_cases h0 : limit = 0
      · rw [if_pos h0]
      · rw [if_neg h0]
        exact List.take_of_length_le (by rw [hlen]; exact hle)
  refine ⟨?_, ?_, rfl⟩
  · rw [hfull]
    exact List.perm_insertionSort tsGe _
  · rw [hfull]
    exact List.sorted_insertionSort tsGe _

/-- C9 witness: with no `since`, a record 10 seconds old is inside the
15-second default window and a record 20 seconds old is outside — the
result is exactly the 10-second-old record. -/
theorem queryRecent_filter_C9_witness :
    (getRecentDocs now0 [evt10, evt20] none 50).Perm [evt10] ∧
    List.Sorted tsGe (getRecentDocs now0 [evt10, evt20] none 50) ∧
    getRecentEvents now0 [evt10, evt20] none 50 =
      (getRecentDocs now0 [evt10, evt20] none 50).map toApiResponse := by
  have h := queryRecent_filter_C9 now0 [evt10, evt20] none 50 (Or.inr (by decide))
  have hf : ([evt10, evt20].filter
      (fun e => dtLtB (recentBound now0 none) e.timestamp)) = [evt10] := by decide
  rw [hf] at h
  exact h

/-- Inversion of the Python `==` against a string literal. -/
theorem jStrEq_true {v : Json} {s : String} (h : jStrEq v s = true) : v = .str s := by
  cases v <;> simp [jStrEq] at h
  subst h
  rfl

/-- A tracked upstream action tag is one of the three non-`closed`
strings, so it is not `closed`. -/
theorem tracked_not_closed {ga : Json} (h : trackedPRAction ga = true) :
    jStrEq ga "closed" = false := by
  unfold trackedPRAction at h
  simp only [Bool.or_eq_true] at h
  rcases h with (h | h) | h <;> rw [jStrEq_true h] <;> decide

/-- A payload whose `pull_request` field holds a non-object value
normalizes to `None`: a falsy value is treated as missing, a truthy one
makes the `merged` extraction raise. -/
theorem parsePR_none_of_bad_prdata (now : DateTime) (kvs : JsonObj) {v : Json}
    (hl : jlookup kvs "pull_request" = some v)
    (hv : ∀ u : JsonObj, v ≠ .obj u) :
    parsePullRequestEvent now (.obj kvs) = none := by
  unfold parsePullRequestEvent parsePullRequestBody
  simp only [pyGet, exceptBind_ok_eq, hl, Option.getD_some]
  by_cases htr : truthy v = false
  · rw [if_pos htr]
  · rw [if_neg htr]
    cases v with
    | obj u => exact absurd rfl (hv u)
    | null => exact absurd rfl htr
    | bool b => rfl
    | int n => rfl
    | str s => rfl
    | arr l => rfl

/-- When the action classification comes out empty, the parser returns
`None` (the "skip other PR actions" branch). -/
theorem parsePR_skip (now : DateTime) (kvs prkvs : JsonObj)
    (hl : jlookup kvs "pull_request" = some (.obj prkvs))
    (hA : (if jStrEq ((jlookup kvs "action").getD (.str "")) "closed" &&
            truthy ((jlookup prkvs "merged").getD (.bool false)) then some ActionType.MERGE
          else if trackedPRAction ((jlookup kvs "action").getD (.str "")) then
            some ActionType.PULL_REQUEST
          else none) = none) :
    parsePullRequestEvent now (.obj kvs) = none := by
  unfold parsePullRequestEvent parsePullRequestBody
  simp only [pyGet, exceptBind_ok_eq, hl, Option.getD_some]
  by_cases htr : truthy (.obj prkvs) = false
  · rw [if_pos htr]
  · rw [if_neg htr]
    rw [hA]

/-- `v.get(k, d)` on an object succeeds with the defaulted lookup. -/
theorem pyGet_obj (kvs : JsonObj) (k : String) (d : Json) :
    pyGet (.obj kvs) k d = .ok ((jlookup kvs k).getD d) := rfl

/-- Forward run of `parse_pull_request_event` on a well-formed payload:
once the action classification picks `MERGE` or `PULL_REQUEST`, parsing
succeeds and produces a record with that action whose `request_id` carries
the corresponding prefix. -/
theorem parsePR_success_core (now : DateTime) (kvs prkvs : JsonObj)
    (hl : jlookup kvs "pull_request" = some (.obj prkvs))
    (htr : truthy (.obj prkvs) = true)
    (hu : wfObjWith (jlookup prkvs "user") "login" = true)
    (hh : wfObjWith (jlookup prkvs "head") "ref" = true)
    (hb : wfObjWith (jlookup prkvs "base") "ref" = true)
    (ht1 : wfTime (jlookup prkvs "merged_at") = true)
    (ht2 : wfTime (jlookup prkvs "created_at") = true)
    (ht3 : wfTime (jlookup prkvs "updated_at") = true)
    {actionType : String}
    (hAT : actionType = ActionType.MERGE ∨ actionType = ActionType.PULL_REQUEST)
    (hA : (if jStrEq ((jlookup kvs "action").getD (.str "")) "closed" &&
            truthy ((jlookup prkvs "merged").getD (.bool false)) then some ActionType.MERGE
          else if trackedPRAction ((jlookup kvs "action").getD (.str "")) then
            some ActionType.PULL_REQUEST
          else none) = some actionType) :
    ∃ e, parsePullRequestEvent now (.obj kvs) = some e ∧ e.action = actionType ∧
      strStartsWith e.request_id
        (if actionType = ActionType.MERGE then "MERGE-" else "PR-") = true := by
  obtain ⟨a, ha, hcfa⟩ := objField_ok hu
  obtain ⟨f, hf, hcff⟩ := objField_ok hh
  obtain ⟨t, ht, hcft⟩ := objField_ok hb
  have hckM : ∀ x, checkStrS ("MERGE-" ++ x) = .ok ("MERGE-" ++ x) :=
    checkStrS_append_ok (show 'M' ∈ "MERGE-".data by decide) (by decide)
  have hckP : ∀ x, checkStrS ("PR-" ++ x) = .ok ("PR-" ++ x) :=
    checkStrS_append_ok (show 'P' ∈ "PR-".data by decide) (by decide)
  rcases hAT with hM | hP
  · subst hM
    obtain ⟨ts, hts⟩ := timeField_ok now ht1
    refine ⟨⟨"MERGE-" ++ pyStr ((jlookup prkvs "number").getD ((jlookup prkvs "id").getD
      (.str ""))), a, ActionType.MERGE, f, t, ts⟩, ?_, rfl, ?_⟩
    · unfold parsePullRequestEvent parsePullRequestBody
      simp only [pyGet_obj, exceptBind_ok_eq, hl, Option.getD_some, htr, Bool.true_eq_false,
        if_false, hA]
      simp only [pyGet_obj, exceptBind_ok_eq, ha, hf, ht, hts, hcfa, hcff, hcft, hckM,
        eq_self_iff_true, if_true,
        show checkAction ActionType.MERGE = .ok ActionType.MERGE from rfl]
    · rw [if_pos rfl]
      exact strStartsWith_append "MERGE-" _
  · subst hP
    have hne : ActionType.PULL_REQUEST ≠ ActionType.MERGE := by decide
    obtain ⟨ts, hts⟩ := timeField2_ok now ht2 ht3
    refine ⟨⟨"PR-" ++ pyStr ((jlookup prkvs "number").getD ((jlookup prkvs "id").getD
      (.str ""))), a, ActionType.PULL_REQUEST, f, t, ts⟩, ?_, rfl, ?_⟩
    · unfold parsePullRequestEvent parsePullRequestBody
      simp only [pyGet_obj, exceptBind_ok_eq, hl, Option.getD_some, htr, Bool.true_eq_false,
        if_false, hA]
      simp only [pyGet_obj, exceptBind_ok_eq, ha, hf, ht, hts, hcfa, hcff, hcft, hckP, hne,
        if_neg hne, eq_self_iff_true, if_true, if_false,
        show checkAction ActionType.PULL_REQUEST = .ok ActionType.PULL_REQUEST from rfl]
    · rw [if_neg hne]
      exact strStartsWith_append "PR-" _

/-- C1 (amended): for every *well-formed* pull-request payload — one whose
`pull_request` object is non-empty and whose optional fields carry the
runtime types the extraction expects (`wellFormedPR`) — the claimed
classification holds: upstream `closed` with a truthy merged flag yields a
record with action `MERGE` and a `request_id` starting `"MERGE-"`;
`opened`/`reopened`/`synchronize` yields action `PULL_REQUEST` and a
`request_id` starting `"PR-"`; a `closed` without merged, or any other
action, yields not-applicable; and any payload with no `pull_request`
object yields not-applicable.  (The unamended claim fails for an empty or
ill-typed `pull_request` object, see the counterexample.) -/
theorem pr_actions_C1 (now : DateTime) (p : Json) :
    (wellFormedPR p = true →
      ((jStrEq (jGetD p "action" (.str "")) "closed" = true →
          truthy (jGetD (jGetD p "pull_request" (.obj .nil)) "merged" (.bool false)) = true →
          ∃ e, parsePullRequestEvent now p = some e ∧ e.action = ActionType.MERGE ∧
            strStartsWith e.request_id "MERGE-" = true) ∧
        (trackedPRAction (jGetD p "action" (.str "")) = true →
          ∃ e, parsePullRequestEvent now p = some e ∧ e.action = ActionType.PULL_REQUEST ∧
            strStartsWith e.request_id "PR-" = true) ∧
        (jStrEq (jGetD p "action" (.str "")) "closed" = false →
          trackedPRAction (jGetD p "action" (.str "")) = false →
          parsePullRequestEvent now p = none) ∧
        (jStrEq (jGetD p "action" (.str "")) "closed" = true →
          truthy (jGetD (jGetD p "pull_request" (.obj .nil)) "merged" (.bool false)) = false →
          parsePullRequestEvent now p = none))) ∧
    (hasPRObject p = false → parsePullRequestEvent now p = none) := by
  constructor
  · intro hwf
    cases p with
    | obj kvs =>
      rcases hl : jlookup kvs "pull_request" with _ | v
      · simp [wellFormedPR, hl] at hwf
      · cases v with
        | obj prkvs =>
          simp only [wellFormedPR, hl, Bool.and_eq_true] at hwf
          obtain ⟨⟨⟨⟨⟨⟨⟨htr, hm⟩, hu⟩, hh⟩, hb⟩, ht1⟩, ht2⟩, ht3⟩ := hwf
          simp only [jGetD, hl, Option.getD_some]
          refine ⟨?_, ?_, ?_, ?_⟩
          · intro hc hmg
            have hA : (if jStrEq ((jlookup kvs "action").getD (.str "")) "closed" &&
                truthy ((jlookup prkvs "merged").getD (.bool false)) then some ActionType.MERGE
                else if trackedPRAction ((jlookup kvs "action").getD (.str "")) then
                  some ActionType.PULL_REQUEST
                else none) = some ActionType.MERGE := by
              simp [hc, hmg]
            obtain ⟨e, he, hact, hpre⟩ :=
              parsePR_success_core now kvs prkvs hl htr hu hh hb ht1 ht2 ht3 (Or.inl rfl) hA
            rw [if_pos rfl] at hpre
            exact ⟨e, he, hact, hpre⟩
          · intro htrk
            have hc : jStrEq ((jlookup kvs "action").getD (.str "")) "closed" = false :=
              tracked_not_closed htrk
            have hA : (if jStrEq ((jlookup kvs "action").getD (.str "")) "closed" &&
                truthy ((jlookup prkvs "merged").getD (.bool false)) then some ActionType.MERGE
                else if trackedPRAction ((jlookup kvs "action").getD (.str "")) then
                  some ActionType.PULL_REQUEST
                else none) = some ActionType.PULL_REQUEST := by
              simp [hc, htrk]
            obtain ⟨e, he, hact, hpre⟩ :=
              parsePR_success_core now kvs prkvs hl htr hu hh hb ht1 ht2 ht3 (Or.inr rfl) hA
            rw [if_neg (by decide : ¬ (ActionType.PULL_REQUEST = ActionType.MERGE))] at hpre
            exact ⟨e, he, hact, hpre⟩
          · intro hc htrk
            exact parsePR_skip now kvs prkvs hl (by simp [hc, htrk])
          · intro hc hmg
            have hgac : (jlookup kvs "action").getD (.str "") = .str "closed" := jStrEq_true hc
            have htrk : trackedPRAction ((jlookup kvs "action").getD (.str "")) = false := by
              rw [hgac]
              decide
            exact parsePR_skip now kvs prkvs hl (by simp [hmg, htrk])
        | null => simp [wellFormedPR, hl] at hwf
        | bool b => simp [wellFormedPR, hl] at hwf
        | int n => simp [wellFormedPR, hl] at hwf
        | str s => simp [wellFormedPR, hl] at hwf
        | arr l => simp [wellFormedPR, hl] at hwf
    | null => simp [wellFormedPR] at hwf
    | bool b => simp [wellFormedPR] at hwf
    | int n => simp [wellFormedPR] at hwf
    | str s => simp [wellFormedPR] at hwf
    | arr l => simp [wellFormedPR] at hwf
  · intro hno
    cases p with
    | obj kvs =>
      rcases hl : jlookup kvs "pull_request" with _ | v
      · unfold parsePullRequestEvent parsePullRequestBody
        simp only [pyGet_obj, exceptBind_ok_eq, hl, Option.getD_none]
        rfl
      · cases v with
        | obj u => simp [hasPRObject, hl] at hno
        | null => exact parsePR_none_of_bad_prdata now kvs hl (by intro u h; cases h)
        | bool b => exact parsePR_none_of_bad_prdata now kvs hl (by intro u h; cases h)
        | int n => exact parsePR_none_of_bad_prdata now kvs hl (by intro u h; cases h)
        | str s => exact parsePR_none_of_bad_prdata now kvs hl (by intro u h; cases h)
        | arr l => exact parsePR_none_of_bad_prdata now kvs hl (by intro u h; cases h)
    | null => rfl
    | bool b => rfl
    | int n => rfl
    | str s => rfl
    | arr l => rfl

/-- C1 witness: the merged-close fixture payload (PR number 7) is
well-formed, carries action `closed` with merged `true`, and normalizes to
a `MERGE` record whose request id starts with `"MERGE-"`. -/
theorem pr_actions_C1_witness :
    parsePullRequestEvent now0 payloadPRMerge = some evtMerge7 ∧
    evtMerge7.action = ActionType.MERGE ∧
    strStartsWith evtMerge7.request_id "MERGE-" = true := by
  obtain ⟨e, he, hact, hpre⟩ :=
    ((pr_actions_C1 now0 payloadPRMerge).1 (by decide)).1 (by decide) (by decide)
  have hcalc : parsePullRequestEvent now0 payloadPRMerge = some evtMerge7 := by decide
  rw [hcalc] at he
  cases Option.some.inj he
  exact ⟨hcalc, hact, hpre⟩
